import Mathlib

/- Verification of the arkanoid simulation engine: a shallow embedding of the
collision detection and entity state code (collision.js, ball.js, paddle.js,
brick.js, powerup.js, enemy.js, game.js, constants.js) over exact rational
arithmetic, with the trigonometric velocity computations embedded over the
real numbers. -/

namespace Arka

/- Constants from constants.js (CONFIG). -/

def CANVAS_WIDTH : ℚ := 1920
def CANVAS_HEIGHT : ℚ := 1080
def PADDLE_WIDTH : ℚ := 120
def PADDLE_HEIGHT : ℚ := 20
def PADDLE_Y_POSITION : ℚ := 60
def PADDLE_SPEED : ℚ := 400
def BALL_SIZE : ℚ := 8
def BASE_SPEED : ℚ := 400
def MAX_SPEED : ℚ := 800
def BRICK_WIDTH : ℚ := 188
def BRICK_HEIGHT : ℚ := 48
def POWERUP_WIDTH : ℚ := 24
def POWERUP_HEIGHT : ℚ := 12
def POWERUP_SPEED : ℚ := 150
def DROP_CHANCE : ℚ := 0.2
def ENEMY_WIDTH : ℚ := 40
def ENEMY_HEIGHT : ℚ := 40
def ENEMY_SPEED : ℚ := 80

/-- CONFIG.GAME.MAX_BOUNCE_ANGLE, 60 degrees in radians. -/
noncomputable def MAX_BOUNCE_ANGLE : ℝ := Real.pi / 3

/-- Number of entries of the BRICK_COLORS palette in constants.js; the palette
itself holds CSS color strings, rendering-only data that we model by the
palette index. -/
def BRICK_COLORS_LENGTH : ℕ := 6

/-- Game.speedIncreaseThreshold (game.js). -/
def speedIncreaseThreshold : ℕ := 10

/- Geometry primitives (collision.js, CollisionDetector). -/

/-- An axis-aligned rectangle as used throughout the source
(getBounds objects with fields x, y, width, height). -/
structure Rect where
  x : ℚ
  y : ℚ
  width : ℚ
  height : ℚ
deriving DecidableEq

/-- CollisionDetector.checkAABB (collision.js 15-22). -/
def checkAABB (rect1 rect2 : Rect) : Bool :=
  decide (rect1.x < rect2.x + rect2.width) &&
  decide (rect1.x + rect1.width > rect2.x) &&
  decide (rect1.y < rect2.y + rect2.height) &&
  decide (rect1.y + rect1.height > rect2.y)

/-- A circle as passed to checkCircleRect. -/
structure Circle where
  x : ℚ
  y : ℚ
  radius : ℚ
deriving DecidableEq

/-- Collision side as the strings used by checkCircleRect / resolveBallBrick. -/
inductive Side where
  | top
  | bottom
  | left
  | right
deriving DecidableEq

/-- The collision-info object returned by checkCircleRect.  The source also
returns collided (always true on the some-branch) and
distance = sqrt(dx*dx + dy*dy), which no caller reads; the collision gate on
distance is modelled in squared form, see checkCircleRect and
sqrt_dist_lt_iff. -/
structure CollisionInfo where
  side : Side
  dx : ℚ
  dy : ℚ
deriving DecidableEq

/-- The side-determination branch of CollisionDetector.checkCircleRect
(collision.js 43-66), with dx, dy the offsets of the circle center from the
closest rectangle point (overlapX = radius - |dx|, overlapY = radius - |dy|). -/
def circleRectSide (circle : Circle) (rect : Rect) (dx dy : ℚ) : Side :=
  if circle.y < rect.y then Side.top
  else if circle.y > rect.y + rect.height then Side.bottom
  else if circle.x < rect.x then Side.left
  else if circle.x > rect.x + rect.width then Side.right
  else if circle.radius - |dx| < circle.radius - |dy| then
    (if circle.x < rect.x + rect.width / 2 then Side.left else Side.right)
  else
    (if circle.y < rect.y + rect.height / 2 then Side.top else Side.bottom)

/-- CollisionDetector.checkCircleRect (collision.js 30-78).  The source tests
Math.sqrt(dx*dx + dy*dy) < circle.radius; we use the equivalent squared test
dx*dx + dy*dy < radius*radius (the equivalence for a nonnegative radius is
sqrt_dist_lt_iff below), which keeps the definition decidable. -/
def checkCircleRect (circle : Circle) (rect : Rect) : Option CollisionInfo :=
  let closestX := max rect.x (min circle.x (rect.x + rect.width))
  let closestY := max rect.y (min circle.y (rect.y + rect.height))
  let dx := circle.x - closestX
  let dy := circle.y - closestY
  if dx * dx + dy * dy < circle.radius * circle.radius then
    some { side := circleRectSide circle rect dx dy, dx := dx, dy := dy }
  else
    none

/- Brick entity (brick.js). -/

/-- Brick type strings of brick.js ('single', 'double', 'triple',
'indestructible'); the source's default branch of initType coincides with
'single'. -/
inductive BrickType where
  | single
  | double
  | triple
  | indestructible
deriving DecidableEq

/-- Brick state.  color is the index into the BRICK_COLORS palette (the source
stores the CSS string; index 6 stands for the out-of-palette grey #666666 of
indestructible bricks). -/
structure Brick where
  x : ℚ
  y : ℚ
  width : ℚ
  height : ℚ
  type : BrickType
  hits : ℤ
  maxHits : ℤ
  color : ℕ
  score : ℤ
  indestructible : Bool
  active : Bool
deriving DecidableEq

/-- Brick constructor plus initType (brick.js 355-412). -/
def Brick.init (x y : ℚ) (type : BrickType) : Brick :=
  match type with
  | .single =>
    { x := x, y := y, width := BRICK_WIDTH, height := BRICK_HEIGHT, type := type,
      hits := 1, maxHits := 1, color := 0, score := 10,
      indestructible := false, active := true }
  | .double =>
    { x := x, y := y, width := BRICK_WIDTH, height := BRICK_HEIGHT, type := type,
      hits := 2, maxHits := 2, color := 4, score := 20,
      indestructible := false, active := true }
  | .triple =>
    { x := x, y := y, width := BRICK_WIDTH, height := BRICK_HEIGHT, type := type,
      hits := 3, maxHits := 3, color := 5, score := 30,
      indestructible := false, active := true }
  | .indestructible =>
    { x := x, y := y, width := BRICK_WIDTH, height := BRICK_HEIGHT, type := type,
      hits := -1, maxHits := -1, color := 6, score := 0,
      indestructible := true, active := true }

/-- Brick.updateColor (brick.js 437-443): recompute the damage-tier palette
index Math.max(0, Math.floor(hits / maxHits * (BRICK_COLORS.length - 1))). -/
def Brick.updateColor (b : Brick) : Brick :=
  if b.indestructible then b
  else
    { b with
      color := (max 0 ⌊(b.hits : ℚ) / (b.maxHits : ℚ) *
        ((BRICK_COLORS_LENGTH : ℚ) - 1)⌋).toNat }

/-- Brick.hit (brick.js 418-432); the Bool is the destroyed return value.
The source binds the decremented-and-recolored brick once (this mutated in
place); it is written out threefold here. -/
def Brick.hit (b : Brick) : Brick × Bool :=
  if b.indestructible then (b, false)
  else if (Brick.updateColor { b with hits := b.hits - 1 }).hits ≤ 0 then
    ({ Brick.updateColor { b with hits := b.hits - 1 } with active := false }, true)
  else (Brick.updateColor { b with hits := b.hits - 1 }, false)

/-- Brick.canDropPowerUp (brick.js 462-464). -/
def Brick.canDropPowerUp (b : Brick) : Bool :=
  !b.indestructible && b.active

/-- Brick.getBounds (brick.js 449-456). -/
def Brick.getBounds (b : Brick) : Rect :=
  { x := b.x, y := b.y, width := b.width, height := b.height }

/- Ball entity (ball.js), rational kinematics.  The velocity-from-angle
computations (launch, setVelocityAngle, increaseSpeed) use trigonometry and
are embedded separately over the reals below (BallR, BallV). -/

/-- BALL_STATES of constants.js. -/
inductive BallState where
  | attached
  | launched
  | caught
deriving DecidableEq

/-- Ball state (ball.js constructor). -/
structure Ball where
  x : ℚ
  y : ℚ
  size : ℚ
  baseSpeed : ℚ
  speed : ℚ
  dx : ℚ
  dy : ℚ
  state : BallState
  trail : List (ℚ × ℚ)
  maxTrailLength : ℕ
  active : Bool
deriving DecidableEq

/-- Ball constructor, Ball(x, y) (ball.js 9-21). -/
def Ball.init (x y : ℚ) : Ball :=
  { x := x, y := y, size := BALL_SIZE, baseSpeed := BASE_SPEED, speed := BASE_SPEED,
    dx := 0, dy := 0, state := BallState.attached, trail := [],
    maxTrailLength := 10, active := true }

/-- Ball.update (ball.js 62-93): trail push with bounded length, position
integration, left/right/top wall reflection with position correction, and
bottom-edge deactivation. -/
def Ball.update (b : Ball) (deltaTime : ℚ) : Ball :=
  if b.state = BallState.launched then
    let trail0 := b.trail ++ [(b.x, b.y)]
    let trail := if trail0.length > b.maxTrailLength then trail0.drop 1 else trail0
    let x1 := b.x + b.dx * deltaTime
    let y1 := b.y + b.dy * deltaTime
    let xdx : ℚ × ℚ :=
      if x1 ≤ b.size / 2 then (b.size / 2, |b.dx|)
      else if x1 ≥ CANVAS_WIDTH - b.size / 2 then (CANVAS_WIDTH - b.size / 2, -|b.dx|)
      else (x1, b.dx)
    let ydy : ℚ × ℚ :=
      if y1 ≤ b.size / 2 then (b.size / 2, |b.dy|)
      else (y1, b.dy)
    let active := if ydy.1 > CANVAS_HEIGHT + b.size then false else b.active
    { b with trail := trail, x := xdx.1, dx := xdx.2, y := ydy.1, dy := ydy.2,
             active := active }
  else b

/-- Ball.getBounds (ball.js 119-126). -/
def Ball.getBounds (b : Ball) : Rect :=
  { x := b.x - b.size / 2, y := b.y - b.size / 2, width := b.size, height := b.size }

/-- The SLOW branch of Game.activatePowerUp (game.js 468-472):
ball.speed = Math.max(CONFIG.BALL.BASE_SPEED, ball.speed * 0.7). -/
def applySlow (b : Ball) : Ball :=
  { b with speed := max BASE_SPEED (b.speed * 0.7) }

/- Paddle entity (paddle.js). -/

/-- Paddle state (paddle.js constructor); the CSS color fields are
rendering-only and omitted. -/
structure Paddle where
  width : ℚ
  height : ℚ
  x : ℚ
  y : ℚ
  speed : ℚ
  baseWidth : ℚ
  hasLaser : Bool
  laserTimer : ℚ
deriving DecidableEq

/-- Paddle constructor (paddle.js 9-20). -/
def Paddle.init : Paddle :=
  { width := PADDLE_WIDTH, height := PADDLE_HEIGHT,
    x := CANVAS_WIDTH / 2 - PADDLE_WIDTH / 2,
    y := CANVAS_HEIGHT - PADDLE_Y_POSITION,
    speed := PADDLE_SPEED, baseWidth := PADDLE_WIDTH,
    hasLaser := false, laserTimer := 0 }

/-- Paddle.reset (paddle.js 25-30). -/
def Paddle.reset (p : Paddle) : Paddle :=
  { p with width := p.baseWidth, x := CANVAS_WIDTH / 2 - p.baseWidth / 2,
           hasLaser := false, laserTimer := 0 }

/-- Paddle.move (paddle.js 37-44). -/
def Paddle.move (p : Paddle) (direction deltaTime : ℚ) : Paddle :=
  if direction = 0 then p
  else
    { p with x := max 0 (min (CANVAS_WIDTH - p.width)
        (p.x + direction * p.speed * deltaTime)) }

/-- Paddle.moveTo (paddle.js 50-55). -/
def Paddle.moveTo (p : Paddle) (targetX : ℚ) : Paddle :=
  { p with x := max 0 (min (CANVAS_WIDTH - p.width) (targetX - p.width / 2)) }

/-- The immediate effect of Paddle.extend (paddle.js 61-63): the width grows
to 1.5 times the base width and x is not re-clamped.  The source additionally
schedules (setTimeout, after duration ms) the revert modelled by
Paddle.extendRevert. -/
def Paddle.extend (p : Paddle) : Paddle :=
  { p with width := p.baseWidth * 1.5 }

/-- The deferred width-revert callback scheduled by Paddle.extend
(paddle.js 65-69). -/
def Paddle.extendRevert (p : Paddle) : Paddle :=
  { p with width := p.baseWidth, x := min p.x (CANVAS_WIDTH - p.baseWidth) }

/-- Paddle.enableLaser (paddle.js 76-79). -/
def Paddle.enableLaser (p : Paddle) (duration : ℚ) : Paddle :=
  { p with hasLaser := true, laserTimer := duration }

/-- Paddle.update (paddle.js 85-92), deltaTime in milliseconds. -/
def Paddle.update (p : Paddle) (deltaTime : ℚ) : Paddle :=
  if p.hasLaser then
    if p.laserTimer - deltaTime ≤ 0 then
      { p with laserTimer := p.laserTimer - deltaTime, hasLaser := false }
    else
      { p with laserTimer := p.laserTimer - deltaTime }
  else p

/-- Paddle.getHitPosition (paddle.js 99-102). -/
def Paddle.getHitPosition (p : Paddle) (ballX : ℚ) : ℚ :=
  ((ballX - p.x) / p.width - 0.5) * 2

/-- Paddle.getBounds (paddle.js 108-115). -/
def Paddle.getBounds (p : Paddle) : Rect :=
  { x := p.x, y := p.y, width := p.width, height := p.height }

/-- The spec's paddle position invariant x ∈ [0, fieldWidth - width]. -/
def Paddle.inBounds (p : Paddle) : Prop :=
  0 ≤ p.x ∧ p.x ≤ CANVAS_WIDTH - p.width

instance (p : Paddle) : Decidable p.inBounds :=
  inferInstanceAs (Decidable (0 ≤ p.x ∧ p.x ≤ CANVAS_WIDTH - p.width))

/- PowerUp entity (powerup.js); states and rendering data beyond the claims'
needs (spawnTime, effectApplied, letter/color) are omitted. -/

/-- A falling power-up capsule (powerup.js constructor).  type is one of the
POWERUP_TYPES characters E, S, M, L (or the fallback of initType for an
unknown type). -/
structure PowerUp where
  x : ℚ
  y : ℚ
  width : ℚ
  height : ℚ
  type : Char
  speed : ℚ
  active : Bool
deriving DecidableEq

/-- POWERUP_TYPES of constants.js, in Object.values order. -/
def POWERUP_TYPES : List Char := ['E', 'S', 'M', 'L']

/-- PowerUp constructor (powerup.js 217-231). -/
def PowerUp.init (x y : ℚ) (type : Char) : PowerUp :=
  { x := x, y := y, width := POWERUP_WIDTH, height := POWERUP_HEIGHT,
    type := type, speed := POWERUP_SPEED, active := true }

/-- Game.spawnPowerUp (game.js 448-452); the random type draw
types[Math.floor(Math.random() * types.length)] is injected as the
index randIdx modulo the list length. -/
def spawnPowerUp (powerUps : List PowerUp) (x y : ℚ) (randIdx : ℕ) : List PowerUp :=
  powerUps ++ [PowerUp.init x y (POWERUP_TYPES.getD (randIdx % POWERUP_TYPES.length) '?')]

/- Ball-brick collision checking and resolution (collision.js), and the
per-ball brick loop of Game.checkCollisions (game.js 374-403). -/

/-- CollisionDetector.checkBallBrick (collision.js 86-96). -/
def checkBallBrick (ball : Ball) (brick : Brick) : Option CollisionInfo :=
  if brick.active = false then none
  else checkCircleRect { x := ball.x, y := ball.y, radius := ball.size / 2 }
    brick.getBounds

/-- CollisionDetector.resolveBallBrick (collision.js 167-183). -/
def resolveBallBrick (ball : Ball) (brick : Brick) (collision : CollisionInfo) : Ball :=
  match collision.side with
  | Side.top => { ball with dy := -ball.dy, y := brick.y - ball.size / 2 }
  | Side.bottom => { ball with dy := -ball.dy, y := brick.y + brick.height + ball.size / 2 }
  | Side.left => { ball with dx := -ball.dx, x := brick.x - ball.size / 2 }
  | Side.right => { ball with dx := -ball.dx, x := brick.x + brick.width + ball.size / 2 }

/-- Result of the per-ball brick loop; speedIncrease records whether the
every-tenth-destroyed-brick branch fired (the source there calls
ball.increaseSpeed(1.05), whose velocity recomputation is trigonometric and
embedded over the reals as BallV.increaseSpeed; it touches no field recorded
here). -/
structure BrickPassOut where
  bricks : List Brick
  ball : Ball
  score : ℤ
  bricksDestroyed : ℕ
  powerUps : List PowerUp
  speedIncrease : Bool
deriving DecidableEq

/-- The ball-brick inner loop of Game.checkCollisions for one ball
(game.js 378-403): scan bricks in storage order, resolve and hit the first
colliding brick, apply the scoring / power-up-drop / speed-increase branch on
destruction, and break.  The power-up random draw Math.random() is injected
as r, the power-up type draw as randIdx. -/
def brickPass (ball : Ball) (r : ℚ) (randIdx : ℕ) (score : ℤ)
    (bricksDestroyed : ℕ) (powerUps : List PowerUp) : List Brick → BrickPassOut
  | [] =>
    { bricks := [], ball := ball, score := score,
      bricksDestroyed := bricksDestroyed, powerUps := powerUps,
      speedIncrease := false }
  | b :: rest =>
    match checkBallBrick ball b with
    | some collision =>
      if b.hit.2 then
        { bricks := b.hit.1 :: rest,
          ball := resolveBallBrick ball b collision,
          score := score + b.hit.1.score,
          bricksDestroyed := bricksDestroyed + 1,
          powerUps :=
            if b.hit.1.canDropPowerUp && decide (r < DROP_CHANCE) then
              spawnPowerUp powerUps (b.hit.1.x + b.hit.1.width / 2)
                (b.hit.1.y + b.hit.1.height) randIdx
            else powerUps,
          speedIncrease := decide ((bricksDestroyed + 1) % speedIncreaseThreshold = 0) }
      else
        { bricks := b.hit.1 :: rest,
          ball := resolveBallBrick ball b collision,
          score := score, bricksDestroyed := bricksDestroyed,
          powerUps := powerUps, speedIncrease := false }
    | none =>
      let out := brickPass ball r randIdx score bricksDestroyed powerUps rest
      { out with bricks := b :: out.bricks }

/- Enemy entity (enemy.js).  The appear/disappear timers use wall-clock
Date.now() and the animation counters are rendering-only; both are omitted:
neither is read by the hit / collision-check path modelled here, and hit()
does not touch visibility. -/

/-- Enemy state (enemy.js constructor). -/
structure Enemy where
  x : ℚ
  y : ℚ
  width : ℚ
  height : ℚ
  speed : ℚ
  dx : ℚ
  dy : ℚ
  active : Bool
  visible : Bool
deriving DecidableEq

/-- Enemy constructor (enemy.js 9-26). -/
def Enemy.init (x y : ℚ) : Enemy :=
  { x := x, y := y, width := ENEMY_WIDTH, height := ENEMY_HEIGHT,
    speed := ENEMY_SPEED, dx := ENEMY_SPEED, dy := 0,
    active := true, visible := true }

/-- Enemy.hit (enemy.js 124-127): hit by laser; sets active to false and
returns true.  Note it leaves visible unchanged. -/
def Enemy.hit (e : Enemy) : Enemy × Bool :=
  ({ e with active := false }, true)

/-- Enemy.checkBallCollision (enemy.js 179-189): guarded on visible only,
then an inline AABB test against the ball bounds. -/
def Enemy.checkBallCollision (e : Enemy) (ball : Ball) : Bool :=
  if e.visible = false then false
  else
    let ballBounds := ball.getBounds
    decide (e.x < ballBounds.x + ballBounds.width) &&
    decide (e.x + e.width > ballBounds.x) &&
    decide (e.y < ballBounds.y + ballBounds.height) &&
    decide (e.y + e.height > ballBounds.y)

/-- CollisionDetector.checkBallEnemy (collision.js 136-138), the test the
ball-enemy loop of Game.checkCollisions (game.js 412-418) gates deflection
on; the loop performs no active check. -/
def checkBallEnemy (ball : Ball) (enemy : Enemy) : Bool :=
  enemy.checkBallCollision ball

/- Real-valued ball velocity model for the trigonometric operations of
ball.js and collision.js. -/

/-- The ball fields read and written by setVelocityAngle / increaseSpeed /
resolveBallPaddle / deflectBall, over the reals. -/
structure BallR where
  x : ℝ
  y : ℝ
  size : ℝ
  dx : ℝ
  dy : ℝ
  speed : ℝ

/-- JavaScript Math.atan2(y, x), as the complex argument of x + y i. -/
noncomputable def atan2 (y x : ℝ) : ℝ :=
  Complex.arg ⟨x, y⟩

/-- Ball.setVelocityAngle (ball.js 99-102). -/
noncomputable def BallR.setVelocityAngle (b : BallR) (angle : ℝ) : BallR :=
  { b with dx := Real.sin angle * b.speed, dy := -Real.cos angle * b.speed }

/-- Enemy.deflectBall (enemy.js 133-142): the random angle in [30°, 60°] and
the random left/right sign are injected as angle and direction; the ball's
active flag is passed alongside the real-valued velocity model. -/
noncomputable def Enemy.deflectBall (e : Enemy) (b : BallR) (ballActive : Bool)
    (angle direction : ℝ) : BallR :=
  if e.visible = false ∨ ballActive = false then b
  else
    { b with dx := Real.sin angle * b.speed * direction,
             dy := -|Real.cos angle * b.speed| }

/-- The dx/dy/speed fields of Ball.increaseSpeed (ball.js 108-113). -/
structure BallV where
  dx : ℝ
  dy : ℝ
  speed : ℝ

/-- Ball.increaseSpeed (ball.js 108-113): cap the multiplied speed at
MAX_SPEED, then reassign the velocity from atan2(dy, dx) + 90° through the
launch convention dx = sin(a)*speed, dy = -cos(a)*speed. -/
noncomputable def BallV.increaseSpeed (b : BallV) (multiplier : ℝ) : BallV :=
  let currentAngle := atan2 b.dy b.dx
  let speed := min (b.speed * multiplier) ((MAX_SPEED : ℚ) : ℝ)
  { dx := Real.sin (currentAngle + Real.pi / 2) * speed,
    dy := -Real.cos (currentAngle + Real.pi / 2) * speed,
    speed := speed }

/- Ball-paddle collision (collision.js). -/

/-- CollisionDetector.checkBallPaddle (collision.js 104-128), returning the
normalized hit position on collision.  The source also returns
angle = hitPosition * CONFIG.GAME.MAX_BOUNCE_ANGLE, modelled by bounceAngle
below (the angle is real-valued, the detection is rational). -/
def checkBallPaddle (ball : Ball) (paddle : Paddle) : Option ℚ :=
  if checkAABB ball.getBounds paddle.getBounds = false then none
  else if ball.dy ≤ 0 then none
  else some (paddle.getHitPosition ball.x)

/-- The bounce angle computed by checkBallPaddle:
hitPos * CONFIG.GAME.MAX_BOUNCE_ANGLE. -/
noncomputable def bounceAngle (hitPos : ℚ) : ℝ :=
  (hitPos : ℝ) * MAX_BOUNCE_ANGLE

/-- CollisionDetector.resolveBallPaddle (collision.js 191-202): reassign the
velocity from the bounce angle (at the pre-increase speed), reposition the
ball flush above the paddle, then increase the speed field by 1.02 capped at
MAX_SPEED. -/
noncomputable def resolveBallPaddle (ball : BallR) (paddle : Paddle) (angle : ℝ) : BallR :=
  let b1 := ball.setVelocityAngle angle
  let b2 := { b1 with y := (paddle.y : ℝ) - ball.size / 2 }
  { b2 with speed := min (b2.speed * 1.02) ((MAX_SPEED : ℚ) : ℝ) }

/- Ball speed events (the three speed-field mutations of the running game:
ball.js increaseSpeed, collision.js resolveBallPaddle, game.js
activatePowerUp SLOW branch). -/

/-- The speed-modifying events of a ball in play. -/
inductive SpeedEvent where
  | brickSpeedUp
  | paddleHit
  | slowPowerUp
deriving DecidableEq

/-- Effect of each speed event on the speed field: every-tenth-brick
increaseSpeed(1.05) caps at MAX_SPEED (ball.js 110), the paddle-hit increase
is min(speed * 1.02, MAX_SPEED) (collision.js 201), and the Slow power-up is
max(BASE_SPEED, speed * 0.7) (game.js 470). -/
def applySpeedEvent (s : ℚ) : SpeedEvent → ℚ
  | SpeedEvent.brickSpeedUp => min (s * 1.05) MAX_SPEED
  | SpeedEvent.paddleHit => min (s * 1.02) MAX_SPEED
  | SpeedEvent.slowPowerUp => max BASE_SPEED (s * 0.7)

/-- The game's collision pass reaches Brick.hit only through checkBallBrick,
which skips inactive bricks; this is a hit guarded the same way. -/
def Brick.guardedHit (b : Brick) : Brick × Bool :=
  if b.active then b.hit else (b, false)

/-- The hits bookkeeping invariant maintained by active-guarded hits on a
non-indestructible brick: an active brick still has a hit to give, an
inactive one stopped at zero. -/
def Brick.hitsInv (b : Brick) : Prop :=
  b.indestructible = false →
    (b.active = true → 1 ≤ b.hits) ∧ (b.active = false → 0 ≤ b.hits)

/- Concrete instances used by the claim witnesses and counterexamples. -/

/-- A starting paddle state for the extend counterexample: a legally placed
paddle flush against the right wall. -/
def c3Paddle : Paddle := { Paddle.init with x := 1800 }

/-- A freshly constructed single-hit brick, for the C4 counterexample. -/
def c4Brick : Brick := Brick.init 0 0 BrickType.single

/-- A launched ball overlapping both bricks of the C9 witness. -/
def c9Ball : Ball :=
  { Ball.init 94 40 with state := BallState.launched, dx := 200, dy := 200 }

/-- First brick of the C9 witness (overlapping the ball). -/
def c9Brick1 : Brick := Brick.init 0 0 BrickType.single

/-- Second brick of the C9 witness (also overlapping the ball). -/
def c9Brick2 : Brick := Brick.init 0 0 BrickType.double

/-- The collision checkBallBrick reports for the C9 witness ball against
either witness brick. -/
def c9Col : CollisionInfo := { side := Side.bottom, dx := 0, dy := 0 }

/-- The visible patrolling enemy of the C2 scenario. -/
def c2Enemy : Enemy := Enemy.init 100 150

/-- A launched ball overlapping the C2 enemy's bounds. -/
def c2Ball : Ball :=
  { Ball.init 120 170 with state := BallState.launched, dx := 200, dy := 300 }

/-- The same ball in the real-valued velocity model. -/
def c2BallR : BallR := { x := 120, y := 170, size := 8, dx := 200, dy := 300, speed := 400 }

/-- The C6 witness circle, centered exactly at the rectangle's top-left
corner. -/
def c6Circle : Circle := { x := 100, y := 200, radius := 4 }

/-- The C6 witness rectangle (a brick's bounds). -/
def c6Rect : Rect := { x := 100, y := 200, width := 188, height := 48 }

/-- The collision checkCircleRect reports for the C6 witness. -/
def c6Col : CollisionInfo := { side := Side.top, dx := 0, dy := 0 }

/-- The C5 witness ball, launched straight up at base speed. -/
def c5Ball : BallV := { dx := 0, dy := -400, speed := 400 }

/-- The C8 counterexample paddle, spanning [900, 1020]. -/
def c8Paddle : Paddle := { Paddle.init with x := 900 }

/-- The C8 counterexample ball: moving downward, AABBs overlapping, but its
center at x = 1023 lies past the paddle's right edge. -/
def c8Ball : Ball :=
  { Ball.init 1023 1018 with state := BallState.launched, dy := 100 }

/-- The C8 witness paddle of the spec scenario, spanning [900, 1020] with
center 960. -/
def w8Paddle : Paddle := { Paddle.init with x := 900 }

/-- The C8 witness ball at the paddle center, moving downward. -/
def w8Ball : Ball :=
  { Ball.init 960 1018 with state := BallState.launched, dy := 300 }

/- ================= Helper lemmas ================= -/

/-- The squared collision gate used in checkCircleRect agrees with the
source's Math.sqrt(dx*dx + dy*dy) < radius for any nonnegative radius. -/
theorem sqrt_dist_lt_iff (dx dy r : ℚ) (hr : 0 ≤ r) :
    Real.sqrt ((dx : ℝ) * (dx : ℝ) + (dy : ℝ) * (dy : ℝ)) < (r : ℝ) ↔
      dx * dx + dy * dy < r * r := by
  rcases eq_or_lt_of_le hr with h | h
  · refine iff_of_false (not_lt.mpr ?_) (not_lt.mpr ?_)
    · rw [← h]
      push_cast
      exact Real.sqrt_nonneg _
    · nlinarith [mul_self_nonneg dx, mul_self_nonneg dy]
  · rw [Real.sqrt_lt' (by exact_mod_cast h), sq]
    constructor
    · intro h2
      exact_mod_cast h2
    · intro h2
      exact_mod_cast h2

@[simp] theorem Brick.updateColor_hits (b : Brick) : b.updateColor.hits = b.hits := by
  unfold Brick.updateColor
  split <;> rfl

@[simp] theorem Brick.updateColor_active (b : Brick) : b.updateColor.active = b.active := by
  unfold Brick.updateColor
  split <;> rfl

@[simp] theorem Brick.updateColor_indestructible (b : Brick) :
    b.updateColor.indestructible = b.indestructible := by
  unfold Brick.updateColor
  split <;> rfl

/-- On an indestructible brick, hit() is a no-op returning false. -/
theorem Brick.hit_ind (b : Brick) (h : b.indestructible = true) :
    b.hit = (b, false) := by
  unfold Brick.hit
  rw [if_pos h]

/-- Characterization of hit() on a non-indestructible brick: hits decrements,
the destroyed flag and deactivation fire exactly when the decremented hits
reaches 0. -/
theorem Brick.hit_spec (b : Brick) (h : b.indestructible = false) :
    b.hit.1.hits = b.hits - 1 ∧
    b.hit.2 = decide (b.hits - 1 ≤ 0) ∧
    b.hit.1.active = (if b.hits - 1 ≤ 0 then false else b.active) ∧
    b.hit.1.indestructible = false := by
  unfold Brick.hit
  rw [if_neg (by simp [h])]
  by_cases hz : b.hits - 1 ≤ 0
  · rw [if_pos (by simpa using hz)]
    simp [hz, h]
  · rw [if_neg (by simpa using hz)]
    simp [hz, h]

/-- A brick that hit() reports destroyed has just been deactivated. -/
theorem Brick.hit_destroyed_inactive (b : Brick) (h : b.hit.2 = true) :
    b.hit.1.active = false := by
  by_cases h1 : b.indestructible = true
  · rw [Brick.hit_ind b h1] at h
    exact absurd h (by simp)
  · have h1' : b.indestructible = false := by
      cases hx : b.indestructible
      · rfl
      · exact absurd hx h1
    obtain ⟨_, hd, ha, _⟩ := Brick.hit_spec b h1'
    rw [hd] at h
    rw [ha, if_pos (by simpa using h)]

/- ================= Claim theorems ================= -/

/-- C1: the brick-destruction branch of the collision pass can never append a
power-up, whatever the random draw: canDropPowerUp is evaluated on the brick
after hit() has already set active = false, so it always returns false at
this call site and the power-up list is returned unchanged (the spec instead
calls for exactly one spawn at the brick's bottom-center whenever the draw
falls below DROP_CHANCE). -/
theorem brickPass_never_spawns_powerup (ball : Ball) (r : ℚ) (randIdx : ℕ)
    (score : ℤ) (n : ℕ) (powerUps : List PowerUp) (bricks : List Brick) :
    (brickPass ball r randIdx score n powerUps bricks).powerUps = powerUps := by
  induction bricks with
  | nil => rfl
  | cons b rest ih =>
    simp only [brickPass]
    cases hc : checkBallBrick ball b with
    | none => simpa using ih
    | some col =>
      by_cases hd : b.hit.2 = true
      · have hdrop : b.hit.1.canDropPowerUp = false := by
          simp [Brick.canDropPowerUp, Brick.hit_destroyed_inactive b hd]
        simp [hd, hdrop]
      · simp [hd]

/-- C2: after a laser projectile destroys an enemy, Enemy.hit has set
active = false but left visible = true, so the very next collision pass still
detects a ball-enemy collision with it (checkBallCollision guards on visible
only, and the ball-enemy loop of Game.checkCollisions performs no active
check) and deflectBall still reassigns the ball's velocity (its guard also
ignores active). -/
theorem laser_destroyed_enemy_still_deflects_ball :
    c2Enemy.hit.1.active = false ∧
    c2Enemy.hit.1.visible = true ∧
    checkBallEnemy c2Ball c2Enemy.hit.1 = true ∧
    Enemy.deflectBall c2Enemy.hit.1 c2BallR true (Real.pi / 4) 1
      = { c2BallR with dx := Real.sin (Real.pi / 4) * c2BallR.speed * 1,
                       dy := -|Real.cos (Real.pi / 4) * c2BallR.speed| } := by
  refine ⟨rfl, rfl, ?_, ?_⟩
  · norm_num [checkBallEnemy, Enemy.checkBallCollision, Enemy.hit, c2Enemy,
      Enemy.init, c2Ball, Ball.init, Ball.getBounds, BALL_SIZE, BASE_SPEED,
      ENEMY_WIDTH, ENEMY_HEIGHT, ENEMY_SPEED]
  · simp [Enemy.deflectBall, Enemy.hit, c2Enemy, Enemy.init]

/-- C3 counterexample: the paddle at x = 1800 (the right edge for the base
width 120) satisfies the invariant, but Paddle.extend widens it to 180
without re-clamping, violating x ≤ fieldWidth - width. -/
theorem paddle_extend_violates_bounds :
    c3Paddle.inBounds ∧ ¬ c3Paddle.extend.inBounds := by
  norm_num [c3Paddle, Paddle.init, Paddle.inBounds, Paddle.extend, CANVAS_WIDTH,
    PADDLE_WIDTH, PADDLE_HEIGHT, PADDLE_Y_POSITION, PADDLE_SPEED]

/-- C3 (amended): x ∈ [0, fieldWidth - width] holds initially and is
preserved by move, moveTo, enableLaser, update, reset and the deferred
extend-revert (for widths within the field); extend preserves only the lower
bound, and preserves the full invariant exactly on paddles already fitting
the widened span. -/
theorem paddle_bounds_invariant_amended :
    Paddle.init.inBounds ∧
    ∀ p : Paddle, p.inBounds → p.width ≤ CANVAS_WIDTH → p.baseWidth ≤ CANVAS_WIDTH →
      (∀ direction deltaTime : ℚ, (p.move direction deltaTime).inBounds) ∧
      (∀ targetX : ℚ, (p.moveTo targetX).inBounds) ∧
      (∀ duration : ℚ, (p.enableLaser duration).inBounds) ∧
      (∀ deltaTime : ℚ, (p.update deltaTime).inBounds) ∧
      p.reset.inBounds ∧
      p.extendRevert.inBounds ∧
      0 ≤ p.extend.x ∧
      (p.x ≤ CANVAS_WIDTH - p.baseWidth * 1.5 → p.extend.inBounds) := by
  constructor
  · norm_num [Paddle.init, Paddle.inBounds, CANVAS_WIDTH, PADDLE_WIDTH,
      PADDLE_HEIGHT, PADDLE_Y_POSITION, PADDLE_SPEED]
  intro p hp hW hB
  obtain ⟨hp0, hp1⟩ := hp
  have hA : (0 : ℚ) ≤ CANVAS_WIDTH - p.width := by linarith
  have hAB : (0 : ℚ) ≤ CANVAS_WIDTH - p.baseWidth := by linarith
  refine ⟨?_, ?_, ?_, ?_, ?_, ?_, ?_, ?_⟩
  · intro direction deltaTime
    unfold Paddle.move
    split
    · exact ⟨hp0, hp1⟩
    · exact ⟨le_max_left _ _, max_le hA (min_le_left _ _)⟩
  · intro targetX
    exact ⟨le_max_left _ _, max_le hA (min_le_left _ _)⟩
  · intro duration
    exact ⟨hp0, hp1⟩
  · intro deltaTime
    unfold Paddle.update
    split
    · split
      · exact ⟨hp0, hp1⟩
      · exact ⟨hp0, hp1⟩
    · exact ⟨hp0, hp1⟩
  · constructor
    · show (0 : ℚ) ≤ CANVAS_WIDTH / 2 - p.baseWidth / 2
      linarith
    · show CANVAS_WIDTH / 2 - p.baseWidth / 2 ≤ CANVAS_WIDTH - p.baseWidth
      linarith
  · exact ⟨le_min hp0 hAB, min_le_right _ _⟩
  · exact hp0
  · intro hx
    exact ⟨hp0, hx⟩

/-- C3 amended witness, at the freshly constructed paddle. -/
theorem paddle_bounds_invariant_amended_witness :
    Paddle.init.inBounds ∧ (Paddle.init.moveTo 0).inBounds ∧
    Paddle.init.reset.inBounds ∧ Paddle.init.extend.inBounds :=
  have h := paddle_bounds_invariant_amended
  have h2 := h.2 Paddle.init h.1
    (by norm_num [Paddle.init, CANVAS_WIDTH, PADDLE_WIDTH])
    (by norm_num [Paddle.init, CANVAS_WIDTH, PADDLE_WIDTH])
  ⟨h.1, h2.2.1 0, h2.2.2.2.2.1, h2.2.2.2.2.2.2.2
    (by norm_num [Paddle.init, CANVAS_WIDTH, PADDLE_WIDTH])⟩

/-- C4 counterexample: after a single-hit brick is destroyed (active = false),
a further call to Brick.hit is not a no-op returning false: it decrements
hits to -1 (below 0) and returns true. -/
theorem brick_hit_on_inactive_not_noop :
    c4Brick.hit.1.active = false ∧
    c4Brick.hit.1.hit.2 = true ∧
    c4Brick.hit.1.hit.1.hits = -1 := by
  norm_num [c4Brick, Brick.init, Brick.hit, Brick.updateColor, BRICK_COLORS_LENGTH]

/-- C4 (amended): hits is non-increasing across active-guarded hits; for a
non-indestructible brick satisfying the hits invariant (true of every freshly
constructed brick) a guarded hit keeps hits at 0 or above and preserves the
invariant, and a guarded hit on an inactive brick is a no-op returning false.
(An unguarded Brick.hit on an inactive brick decrements hits below 0 and
returns true, see the counterexample; the game only hits bricks through the
active guard of checkBallBrick.) -/
theorem brick_hits_monotone_amended :
    (∀ (x y : ℚ) (t : BrickType), (Brick.init x y t).hitsInv) ∧
    ∀ b : Brick,
      b.guardedHit.1.hits ≤ b.hits ∧
      (b.hitsInv →
        b.guardedHit.1.hitsInv ∧
        (b.indestructible = false → 0 ≤ b.guardedHit.1.hits) ∧
        (b.active = false → b.guardedHit = (b, false))) := by
  constructor
  · intro x y t
    cases t <;> simp [Brick.init, Brick.hitsInv]
  intro b
  by_cases hact : b.active = true
  · have hg : b.guardedHit = b.hit := by
      unfold Brick.guardedHit
      rw [if_pos hact]
    by_cases hind : b.indestructible = true
    · rw [hg, Brick.hit_ind b hind]
      refine ⟨le_refl _, fun hinv => ⟨hinv, ?_, fun _ => rfl⟩⟩
      intro hf
      exact absurd hf (by simp [hind])
    · have hind' : b.indestructible = false := by
        cases hx : b.indestructible
        · rfl
        · exact absurd hx hind
      obtain ⟨hh, _, ha, hi⟩ := Brick.hit_spec b hind'
      rw [hg]
      refine ⟨by omega, ?_⟩
      intro hinv
      have h1 : 1 ≤ b.hits := (hinv hind').1 hact
      refine ⟨?_, fun _ => by omega, ?_⟩
      · intro _
        constructor
        · intro hA
          rw [ha] at hA
          by_cases hz : b.hits - 1 ≤ 0
          · rw [if_pos hz] at hA
            exact absurd hA (by simp)
          · rw [hh]
            omega
        · intro hA
          rw [ha] at hA
          by_cases hz : b.hits - 1 ≤ 0
          · rw [hh]
            omega
          · rw [if_neg hz] at hA
            rw [hA] at hact
            exact absurd hact (by simp)
      · intro hf
        rw [hf] at hact
        exact absurd hact (by simp)
  · have hact' : b.active = false := by
      cases hx : b.active
      · rfl
      · exact absurd hx hact
    have hg : b.guardedHit = (b, false) := by
      unfold Brick.guardedHit
      rw [if_neg hact]
    rw [hg]
    refine ⟨le_refl _, ?_⟩
    intro hinv
    exact ⟨hinv, fun hind => (hinv hind).2 hact', fun _ => rfl⟩

/-- C4 amended witness, at a fresh double-hit brick. -/
theorem brick_hits_monotone_amended_witness :
    (Brick.init 0 0 BrickType.double).guardedHit.1.hits ≤
      (Brick.init 0 0 BrickType.double).hits ∧
    (Brick.init 0 0 BrickType.double).guardedHit.1.hitsInv ∧
    0 ≤ (Brick.init 0 0 BrickType.double).guardedHit.1.hits :=
  ⟨(brick_hits_monotone_amended.2 _).1,
   ((brick_hits_monotone_amended.2 _).2 (brick_hits_monotone_amended.1 0 0 _)).1,
   ((brick_hits_monotone_amended.2 _).2 (brick_hits_monotone_amended.1 0 0 _)).2.1 rfl⟩

/-- C5: Ball.increaseSpeed multiplies the speed by the multiplier capped at
MAX_SPEED and preserves the direction of travel: the 90-degree offset added
to atan2(dy, dx) composes with the launch convention
(dx = sin(a)*speed, dy = -cos(a)*speed) to the identity rotation, so the new
velocity is positively proportional to the old one. -/
theorem increaseSpeed_caps_and_preserves_direction (b : BallV) (m : ℝ)
    (hz : b.dx ≠ 0 ∨ b.dy ≠ 0) (hs : 0 < b.speed) (hm : 0 < m) :
    (b.increaseSpeed m).speed = min (b.speed * m) ((MAX_SPEED : ℚ) : ℝ) ∧
    (b.increaseSpeed m).speed ≤ ((MAX_SPEED : ℚ) : ℝ) ∧
    ∃ c : ℝ, 0 < c ∧ (b.increaseSpeed m).dx = c * b.dx ∧
      (b.increaseSpeed m).dy = c * b.dy := by
  have hz0 : (⟨b.dx, b.dy⟩ : ℂ) ≠ 0 := by
    intro h
    rw [Complex.ext_iff] at h
    rcases hz with h1 | h1
    · exact h1 h.1
    · exact h1 h.2
  have habs : 0 < Complex.abs ⟨b.dx, b.dy⟩ := Complex.abs.pos hz0
  have hspeed : 0 < min (b.speed * m) ((MAX_SPEED : ℚ) : ℝ) := by
    refine lt_min (mul_pos hs hm) ?_
    norm_num [MAX_SPEED]
  have hsin : Real.sin (atan2 b.dy b.dx + Real.pi / 2)
      = b.dx / Complex.abs ⟨b.dx, b.dy⟩ := by
    rw [Real.sin_add, Real.sin_pi_div_two, Real.cos_pi_div_two, atan2,
      Complex.cos_arg hz0]
    simp
  have hcos : Real.cos (atan2 b.dy b.dx + Real.pi / 2)
      = -(b.dy / Complex.abs ⟨b.dx, b.dy⟩) := by
    rw [Real.cos_add, Real.sin_pi_div_two, Real.cos_pi_div_two, atan2,
      Complex.sin_arg]
    simp
  refine ⟨rfl, min_le_right _ _,
    ⟨min (b.speed * m) ((MAX_SPEED : ℚ) : ℝ) / Complex.abs ⟨b.dx, b.dy⟩,
      div_pos hspeed habs, ?_, ?_⟩⟩
  · simp only [BallV.increaseSpeed]
    rw [hsin]
    ring
  · simp only [BallV.increaseSpeed]
    rw [hcos]
    ring

/-- C5 witness at the concrete straight-up ball with the source's 1.05
multiplier. -/
theorem increaseSpeed_caps_and_preserves_direction_witness :
    (c5Ball.increaseSpeed 1.05).speed = min (c5Ball.speed * 1.05) ((MAX_SPEED : ℚ) : ℝ) ∧
    (c5Ball.increaseSpeed 1.05).speed ≤ ((MAX_SPEED : ℚ) : ℝ) ∧
    ∃ c : ℝ, 0 < c ∧ (c5Ball.increaseSpeed 1.05).dx = c * c5Ball.dx ∧
      (c5Ball.increaseSpeed 1.05).dy = c * c5Ball.dy :=
  increaseSpeed_caps_and_preserves_direction c5Ball 1.05
    (Or.inr (by norm_num [c5Ball])) (by norm_num [c5Ball]) (by norm_num)

/-- C6: when the circle center lies inside the rectangle (the deep-penetration
branch of checkCircleRect) and the two overlaps radius - |dx| and
radius - |dy| are equal, the resolved side is top or bottom, never left or
right: the tie goes to the vertical axis since the source compares the
overlaps with a strict less-than. -/
theorem circleRect_deep_tie_resolves_vertical (circle : Circle) (rect : Rect)
    (col : CollisionInfo)
    (h1 : ¬ circle.y < rect.y) (h2 : ¬ circle.y > rect.y + rect.height)
    (h3 : ¬ circle.x < rect.x) (h4 : ¬ circle.x > rect.x + rect.width)
    (hcol : checkCircleRect circle rect = some col)
    (htie : circle.radius - |col.dx| = circle.radius - |col.dy|) :
    col.side = Side.top ∨ col.side = Side.bottom := by
  simp only [checkCircleRect] at hcol
  split at hcol
  · have hc := (Option.some.inj hcol).symm
    rw [hc] at htie ⊢
    dsimp only at htie ⊢
    unfold circleRectSide
    rw [if_neg h1, if_neg h2, if_neg h3, if_neg h4,
      if_neg (by rw [htie]; exact lt_irrefl _)]
    by_cases h5 : circle.y < rect.y + rect.height / 2
    · rw [if_pos h5]
      exact Or.inl rfl
    · rw [if_neg h5]
      exact Or.inr rfl
  · exact absurd hcol (by simp)

/-- C6 witness: a circle centered exactly at a rectangle corner (equal
corner-to-center magnitudes, both zero) resolves to a vertical side. -/
theorem circleRect_deep_tie_resolves_vertical_witness :
    c6Col.side = Side.top ∨ c6Col.side = Side.bottom :=
  circleRect_deep_tie_resolves_vertical c6Circle c6Rect c6Col
    (by norm_num [c6Circle, c6Rect])
    (by norm_num [c6Circle, c6Rect])
    (by norm_num [c6Circle, c6Rect])
    (by norm_num [c6Circle, c6Rect])
    (by norm_num [checkCircleRect, circleRectSide, c6Circle, c6Rect, c6Col,
      min_def, max_def])
    (by norm_num [c6Circle, c6Col])

/-- C7: ball.speed ≤ MAX_SPEED is an invariant: starting from the base speed,
every sequence of speed-modifying events (every-10th-brick increaseSpeed 1.05,
the paddle-hit 1.02 increase, the Slow power-up reduction) keeps the speed at
or below MAX_SPEED. -/
theorem ball_speed_le_max_speed (events : List SpeedEvent) :
    List.foldl applySpeedEvent BASE_SPEED events ≤ MAX_SPEED := by
  have key : ∀ (evs : List SpeedEvent) (s : ℚ), s ≤ MAX_SPEED →
      List.foldl applySpeedEvent s evs ≤ MAX_SPEED := by
    intro evs
    induction evs with
    | nil => intro s hs; simpa using hs
    | cons e rest ih =>
      intro s hs
      refine ih _ ?_
      cases e with
      | brickSpeedUp => exact min_le_right _ _
      | paddleHit => exact min_le_right _ _
      | slowPowerUp =>
        have h1 : BASE_SPEED ≤ MAX_SPEED := by norm_num [BASE_SPEED, MAX_SPEED]
        have h2 : s * 0.7 ≤ MAX_SPEED := by
          rw [MAX_SPEED] at hs ⊢
          nlinarith
        exact max_le h1 h2
  exact key events BASE_SPEED (by norm_num [BASE_SPEED, MAX_SPEED])

/-- C8 counterexample: a detected ball-paddle collision whose normalized hit
position is 21/20, outside [-1, 1] (the AABB overlap admits ball centers up
to half a ball size beyond the paddle span). -/
theorem checkBallPaddle_hitpos_exceeds_one :
    checkBallPaddle c8Ball c8Paddle = some (21 / 20) ∧ ¬ ((21 / 20 : ℚ) ≤ 1) := by
  constructor
  · norm_num [checkBallPaddle, checkAABB, Ball.getBounds, Paddle.getBounds,
      Paddle.getHitPosition, c8Ball, c8Paddle, Ball.init, Paddle.init, BALL_SIZE,
      BASE_SPEED, CANVAS_WIDTH, CANVAS_HEIGHT, PADDLE_WIDTH, PADDLE_HEIGHT,
      PADDLE_Y_POSITION, PADDLE_SPEED]
  · norm_num

/-- C8 (amended): a ball-paddle collision is detected exactly when the AABBs
overlap and the ball moves downward; the reported hit position is
2*((ball.x - paddle.x)/width - 0.5), which lies in [-1, 1] whenever the
ball's center is within the paddle span (it can exceed the range slightly
when the AABBs overlap with the center past a paddle edge); the bounce angle
is hitPos * 60 degrees, so a center hit bounces straight up and the left edge
gives -60 degrees; resolution repositions the ball flush above the paddle,
reassigns the velocity from the bounce angle at the pre-increase speed, and
multiplies the speed field by 1.02 capped at MAX_SPEED. -/
theorem ball_paddle_bounce_amended (ball : Ball) (p : Paddle) (hw : 0 < p.width) :
    ((checkBallPaddle ball p).isSome = true ↔
        (checkAABB ball.getBounds p.getBounds = true ∧ 0 < ball.dy)) ∧
    (∀ h : ℚ, checkBallPaddle ball p = some h → h = p.getHitPosition ball.x) ∧
    (p.x ≤ ball.x → ball.x ≤ p.x + p.width →
        -1 ≤ p.getHitPosition ball.x ∧ p.getHitPosition ball.x ≤ 1) ∧
    (ball.x = p.x + p.width / 2 → p.getHitPosition ball.x = 0) ∧
    (ball.x = p.x → p.getHitPosition ball.x = -1) ∧
    bounceAngle 0 = 0 ∧
    bounceAngle (-1) = -(Real.pi / 3) ∧
    (∀ (b : BallR) (angle : ℝ),
        (resolveBallPaddle b p angle).y = (p.y : ℝ) - b.size / 2 ∧
        (resolveBallPaddle b p angle).speed
            = min (b.speed * 1.02) ((MAX_SPEED : ℚ) : ℝ) ∧
        (resolveBallPaddle b p angle).dx = Real.sin angle * b.speed ∧
        (resolveBallPaddle b p angle).dy = -Real.cos angle * b.speed) := by
  refine ⟨?_, ?_, ?_, ?_, ?_, ?_, ?_, fun b angle => ⟨rfl, rfl, rfl, rfl⟩⟩
  · unfold checkBallPaddle
    by_cases h1 : checkAABB ball.getBounds p.getBounds = false
    · simp [h1]
    · have h1' : checkAABB ball.getBounds p.getBounds = true := by
        cases hx : checkAABB ball.getBounds p.getBounds
        · exact absurd hx h1
        · rfl
      rw [if_neg h1]
      by_cases h2 : ball.dy ≤ 0
      · rw [if_pos h2]
        simp [h1', not_lt.mpr h2]
      · rw [if_neg h2]
        simp [h1', not_le.mp h2]
  · intro h hsome
    unfold checkBallPaddle at hsome
    split at hsome
    · exact absurd hsome (by simp)
    · split at hsome
      · exact absurd hsome (by simp)
      · exact (Option.some.inj hsome).symm
  · intro hx1 hx2
    unfold Paddle.getHitPosition
    have hq1 : 0 ≤ (ball.x - p.x) / p.width := div_nonneg (by linarith) hw.le
    have hq2 : (ball.x - p.x) / p.width ≤ 1 := (div_le_one hw).mpr (by linarith)
    constructor
    · linarith
    · linarith
  · intro hx
    unfold Paddle.getHitPosition
    rw [hx]
    have hwne : p.width ≠ 0 := ne_of_gt hw
    field_simp
    ring_nf
  · intro hx
    unfold Paddle.getHitPosition
    rw [hx]
    norm_num
  · norm_num [bounceAngle]
  · norm_num [bounceAngle, MAX_BOUNCE_ANGLE]

/-- C8 amended witness at the spec scenario: center hit yields hit position 0
(bounce straight up) and the -1 edge position maps to -60 degrees. -/
theorem ball_paddle_bounce_amended_witness :
    ((checkBallPaddle w8Ball w8Paddle).isSome = true ↔
        (checkAABB w8Ball.getBounds w8Paddle.getBounds = true ∧ 0 < w8Ball.dy)) ∧
    w8Paddle.getHitPosition w8Ball.x = 0 ∧
    bounceAngle (-1) = -(Real.pi / 3) :=
  have h := ball_paddle_bounce_amended w8Ball w8Paddle
    (by norm_num [w8Paddle, Paddle.init, PADDLE_WIDTH])
  ⟨h.1, h.2.2.2.1 (by norm_num [w8Ball, w8Paddle, Ball.init, Paddle.init,
      CANVAS_WIDTH, PADDLE_WIDTH]), h.2.2.2.2.2.2.1⟩

/-- C9: in one collision pass, a ball registers at most one brick collision:
if no brick before b collides and b does, then b alone is hit (its post-hit
state replaces it), the ball is resolved against b, and every brick after b
is returned untouched, without being checked. -/
theorem brickPass_hits_first_collision_only (ball : Ball) (r : ℚ) (randIdx : ℕ)
    (score : ℤ) (n : ℕ) (powerUps : List PowerUp) (pre post : List Brick)
    (b : Brick) (col : CollisionInfo)
    (hpre : ∀ x ∈ pre, checkBallBrick ball x = none)
    (hb : checkBallBrick ball b = some col) :
    (brickPass ball r randIdx score n powerUps (pre ++ b :: post)).bricks
        = pre ++ b.hit.1 :: post ∧
    (brickPass ball r randIdx score n powerUps (pre ++ b :: post)).ball
        = resolveBallBrick ball b col := by
  revert hpre
  induction pre with
  | nil =>
    intro _
    simp only [List.nil_append, brickPass, hb]
    by_cases hd : b.hit.2 = true <;> simp [hd]
  | cons a pre ih =>
    intro hpre
    have ha : checkBallBrick ball a = none := hpre a (List.mem_cons_self a pre)
    have ihh := ih (fun x hx => hpre x (List.mem_cons_of_mem a hx))
    simp only [List.cons_append, brickPass, ha]
    refine ⟨?_, ?_⟩
    · simp [ihh.1]
    · simp [ihh.2]

/-- C9 witness: the witness ball overlaps both bricks, yet the pass hits only
the first and returns the second verbatim. -/
theorem brickPass_hits_first_collision_only_witness :
    (brickPass c9Ball 0 0 0 0 [] ([] ++ c9Brick1 :: [c9Brick2])).bricks
        = [] ++ c9Brick1.hit.1 :: [c9Brick2] ∧
    (brickPass c9Ball 0 0 0 0 [] ([] ++ c9Brick1 :: [c9Brick2])).ball
        = resolveBallBrick c9Ball c9Brick1 c9Col ∧
    checkBallBrick c9Ball c9Brick2 = some c9Col :=
  have hb2 : checkBallBrick c9Ball c9Brick2 = some c9Col := by
    norm_num [checkBallBrick, checkCircleRect, circleRectSide, Brick.getBounds,
      Brick.init, c9Ball, Ball.init, c9Brick2, c9Col, BRICK_WIDTH, BRICK_HEIGHT,
      BALL_SIZE, BASE_SPEED, min_def, max_def]
  have h := brickPass_hits_first_collision_only c9Ball 0 0 0 0 [] [] [c9Brick2]
    c9Brick1 c9Col (by simp)
    (by norm_num [checkBallBrick, checkCircleRect, circleRectSide, Brick.getBounds,
      Brick.init, c9Ball, Ball.init, c9Brick1, c9Col, BRICK_WIDTH, BRICK_HEIGHT,
      BALL_SIZE, BASE_SPEED, min_def, max_def])
  ⟨h.1, h.2, hb2⟩

/-- C10: catching a Slow power-up rewrites only the scalar speed field of a
ball (to max(BASE_SPEED, 0.7 * speed)); position, velocity (dx, dy), state and
the whole per-tick displacement computed by Ball.update are unchanged. -/
theorem slow_powerup_preserves_velocity (b : Ball) (dt : ℚ) :
    (applySlow b).speed = max BASE_SPEED (b.speed * 0.7) ∧
    (applySlow b).dx = b.dx ∧ (applySlow b).dy = b.dy ∧
    (applySlow b).x = b.x ∧ (applySlow b).y = b.y ∧
    (applySlow b).state = b.state ∧ (applySlow b).active = b.active ∧
    (Ball.update (applySlow b) dt).x = (Ball.update b dt).x ∧
    (Ball.update (applySlow b) dt).y = (Ball.update b dt).y ∧
    (Ball.update (applySlow b) dt).dx = (Ball.update b dt).dx ∧
    (Ball.update (applySlow b) dt).dy = (Ball.update b dt).dy := by
  refine ⟨rfl, rfl, rfl, rfl, rfl, rfl, rfl, ?_, ?_, ?_, ?_⟩ <;>
  · by_cases hs : b.state = BallState.launched <;>
      simp [Ball.update, applySlow, hs]

end Arka
